import Mathlib

/-!
# Verification of the Ice Breakun CRUD backend

Shallow embedding of the backend of the Ice Breakun repository:
the data-access layer (`src/server/db.ts`, Prisma over the schema in
`src/prisma/schema.prisma`) and the HTTP API layer (`src/server/index.ts`,
Hono handlers mounted under `/api/v1`).

Modelling conventions:
* The relational store is a pure state `DB` (lists of rows plus the
  autoincrement counters and a current timestamp).  The storage engine's
  behaviour (unique index on `email`, foreign key `user_id → users.id`
  with `onDelete: Cascade`, `P2002`/`P2003`/`P2025` error codes) is taken
  from `schema.prisma` and reproduced in the repository functions.
* A JavaScript number produced by `parseInt` is modelled as `Option Int`:
  `some n` is the integer `n`, `none` is `NaN`.  `NaN` compares unequal
  to every stored id, so a `NaN` lookup is a miss.
* A JSON body field is `Option String` / `Option Int`: `none` means the
  key is absent.  JavaScript truthiness (`!x`) is modelled by `truthyS`
  and `truthyN` (the empty string, `0` and an absent key are falsy).
* Thrown errors carry the ad-hoc `code` tag of the source as the
  inductive `DbErr`; `DbErr.other detail` stands for any unanticipated
  error, `detail` standing in for its internal message / stack trace.
-/

/-- A row of the `User` table (`model User` in `schema.prisma`,
`interface User` in `db.ts`). -/
structure User where
  id : Int
  name : String
  email : String
  created_at : Nat
  updated_at : Nat
deriving Repr, DecidableEq

/-- A row of the `Message` table (`model Message` in `schema.prisma`). -/
structure Message where
  id : Int
  content : String
  user_id : Int
  created_at : Nat
  updated_at : Nat
deriving Repr, DecidableEq

/-- The relational store: the two tables, the autoincrement counters and
the current clock used for `now()` timestamps. -/
structure DB where
  users : List User
  messages : List Message
  nextUserId : Int
  nextMessageId : Int
  now : Nat
deriving Repr, DecidableEq

/-- The semantic error taxonomy raised by the data-access layer: the
`code` tags `UNIQUE_VIOLATION`, `NOT_FOUND`, `FOREIGN_KEY_VIOLATION`
attached in `db.ts`, plus `other detail` for any unanticipated error
(whose `detail` models the internal message that must never leak). -/
inductive DbErr where
  | uniqueViolation
  | notFound
  | foreignKeyViolation
  | other (detail : String)
deriving Repr, DecidableEq

/-- A `Message` as returned with `include: { user: true }`: the row
together with its joined owner (if any row matches the foreign key). -/
structure MsgJoined where
  msg : Message
  user : Option User
deriving Repr, DecidableEq

/-- Attach the owning `User` row to a message, as Prisma's
`include: { user: true }` does. -/
def joinUser (db : DB) (m : Message) : MsgJoined :=
  ⟨m, db.users.find? (fun u => u.id == m.user_id)⟩

/-- Ascending order on user ids (`orderBy: { id: 'asc' }`). -/
def userLe (a b : User) : Prop := a.id ≤ b.id

instance : DecidableRel userLe := fun a b => inferInstanceAs (Decidable (a.id ≤ b.id))

instance : IsTotal User userLe := ⟨fun a b => Int.le_total a.id b.id⟩

instance : IsTrans User userLe := ⟨fun _ _ _ => Int.le_trans⟩

/-- Descending order on message creation time
(`orderBy: { created_at: 'desc' }`). -/
def msgGe (a b : Message) : Prop := b.created_at ≤ a.created_at

instance : DecidableRel msgGe := fun a b => inferInstanceAs (Decidable (b.created_at ≤ a.created_at))

instance : IsTotal Message msgGe := ⟨fun a b => Nat.le_total b.created_at a.created_at⟩

instance : IsTrans Message msgGe := ⟨fun _ _ _ h h' => Nat.le_trans h' h⟩

/-- Descending creation-time order on joined messages. -/
def joinedGe (a b : MsgJoined) : Prop := b.msg.created_at ≤ a.msg.created_at

/-- `UserRepository.getAllUsers`: all users, ordered by ascending id. -/
def getAllUsers (db : DB) : List User :=
  db.users.insertionSort userLe

/-- `UserRepository.createUser(name, email)`: inserts a row; the unique
index on `email` raises `P2002`, translated to `UNIQUE_VIOLATION`. -/
def createUser (name email : String) (db : DB) : Except DbErr (User × DB) :=
  if db.users.any (fun u => u.email == email) then
    .error .uniqueViolation
  else
    let u : User := ⟨db.nextUserId, name, email, db.now, db.now⟩
    .ok (u, { db with users := db.users ++ [u], nextUserId := db.nextUserId + 1 })

/-- `UserRepository.getUserById(id)`: `findUnique` on the primary key;
absence is `null`, not an error.  The id is a JS number (`none` = NaN). -/
def getUserById (id : Option Int) (db : DB) : Option User :=
  db.users.find? (fun u => some u.id == id)

/-- The partial-update payload built by the PUT /users/:id handler
(`{ name?: string; email?: string }`). -/
structure UpdateData where
  name : Option String := none
  email : Option String := none
deriving Repr, DecidableEq

/-- `UserRepository.updateUser(id, data)`: `P2025` (no row) becomes
`NOT_FOUND`; a colliding new email (`P2002`) becomes `UNIQUE_VIOLATION`;
only supplied fields are written and `updated_at` is refreshed. -/
def updateUser (id : Option Int) (data : UpdateData) (db : DB) :
    Except DbErr (User × DB) :=
  match db.users.find? (fun u => some u.id == id) with
  | none => .error .notFound
  | some u =>
    let newEmail := data.email.getD u.email
    if data.email.isSome && db.users.any (fun v => v.email == newEmail && v.id != u.id) then
      .error .uniqueViolation
    else
      let u' : User := { u with name := data.name.getD u.name, email := newEmail,
                                updated_at := db.now }
      .ok (u', { db with users := db.users.map (fun v => if v.id == u.id then u' else v) })

/-- `UserRepository.deleteUser(id)`: `P2025` becomes `NOT_FOUND`;
`onDelete: Cascade` in the schema removes the user's messages. -/
def deleteUser (id : Option Int) (db : DB) : Except DbErr DB :=
  match db.users.find? (fun u => some u.id == id) with
  | none => .error .notFound
  | some u =>
    .ok { db with users := db.users.filter (fun v => v.id != u.id),
                  messages := db.messages.filter (fun m => m.user_id != u.id) }

/-- `MessageRepository.getAllMessages`: all messages joined with their
user, ordered by descending creation time. -/
def getAllMessages (db : DB) : List MsgJoined :=
  (db.messages.insertionSort msgGe).map (joinUser db)

/-- `MessageRepository.getMessageById(id)`: `findUnique` with the user
joined; absence is `null`. -/
def getMessageById (id : Option Int) (db : DB) : Option MsgJoined :=
  (db.messages.find? (fun m => some m.id == id)).map (joinUser db)

/-- `MessageRepository.createMessage(content, user_id)`: the foreign key
on `user_id` raises `P2003` when no such user exists, translated to
`FOREIGN_KEY_VIOLATION`; on success the row is inserted and returned
joined with its user. -/
def createMessage (content : String) (user_id : Int) (db : DB) :
    Except DbErr (MsgJoined × DB) :=
  if db.users.any (fun u => u.id == user_id) then
    let m : Message := ⟨db.nextMessageId, content, user_id, db.now, db.now⟩
    let db' := { db with messages := db.messages ++ [m],
                         nextMessageId := db.nextMessageId + 1 }
    .ok (joinUser db' m, db')
  else
    .error .foreignKeyViolation

/-- `MessageRepository.updateMessage(id, content)`: `P2025` becomes
`NOT_FOUND`; only `content` is written, `updated_at` refreshed. -/
def updateMessage (id : Option Int) (content : String) (db : DB) :
    Except DbErr (MsgJoined × DB) :=
  match db.messages.find? (fun m => some m.id == id) with
  | none => .error .notFound
  | some m =>
    let m' : Message := { m with content := content, updated_at := db.now }
    let db' := { db with messages := db.messages.map (fun x => if x.id == m.id then m' else x) }
    .ok (joinUser db' m', db')

/-- `MessageRepository.deleteMessage(id)`: `P2025` becomes `NOT_FOUND`. -/
def deleteMessage (id : Option Int) (db : DB) : Except DbErr DB :=
  match db.messages.find? (fun m => some m.id == id) with
  | none => .error .notFound
  | some m =>
    .ok { db with messages := db.messages.filter (fun x => x.id != m.id) }

/-- `MessageRepository.getMessagesByUserId(user_id)`: the user's
messages joined with the user, ordered by descending creation time. -/
def getMessagesByUserId (user_id : Option Int) (db : DB) : List MsgJoined :=
  ((db.messages.filter (fun m => some m.user_id == user_id)).insertionSort msgGe).map
    (joinUser db)

/-! ## The API layer (`src/server/index.ts`) -/

/-- JavaScript truthiness of an optional string body field:
an absent key and the empty string are falsy. -/
def truthyS : Option String → Bool
  | none => false
  | some s => !s.isEmpty

/-- JavaScript truthiness of an optional numeric body field:
an absent key and `0` are falsy. -/
def truthyN : Option Int → Bool
  | none => false
  | some n => n != 0

/-- JavaScript `parseInt` restricted to base 10, as applied to a path
parameter: skip leading spaces, take an optional sign, then the leading
run of decimal digits; `NaN` (here `none`) when that run is empty. -/
def parseIntJs (s : String) : Option Int :=
  let cs := s.toList.dropWhile (fun c => c == ' ')
  let signed : Bool × List Char :=
    match cs with
    | '-' :: rest => (true, rest)
    | '+' :: rest => (false, rest)
    | _ => (false, cs)
  let ds := signed.2.takeWhile (fun c => c.isDigit)
  if ds.isEmpty then none
  else
    let v : Int := Int.ofNat (ds.foldl (fun a c => a * 10 + (c.toNat - 48)) 0)
    some (if signed.1 then -v else v)

/-- The JSON body of POST /users and PUT /users/:id
(`const { name, email } = body`). -/
structure UserBody where
  name : Option String := none
  email : Option String := none
deriving Repr, DecidableEq

/-- The JSON body of POST /messages
(`const { content, user_id } = body`). -/
structure MsgBody where
  content : Option String := none
  user_id : Option Int := none
deriving Repr, DecidableEq

/-- A JSON response body. -/
inductive Body where
  | err (s : String)
  | confirmation (s : String)
  | userRes (s : String) (u : User)
  | usersRes (us : List User)
  | oneMsg (m : MsgJoined)
  | msgRes (s : String) (m : MsgJoined)
  | msgsRes (ms : List MsgJoined)
deriving Repr, DecidableEq

/-- An HTTP response: status code and JSON body. -/
structure Response where
  status : Nat
  body : Body
deriving Repr, DecidableEq

/-- The routed endpoints of the API layer, used to index each handler's
catch-block error mapping. -/
inductive Endpoint where
  | getUsersE | postUsersE | putUsersE | deleteUsersE
  | getMessagesE | getMessageE | postMessagesE | putMessagesE
  | deleteMessagesE | getUserMessagesE
deriving Repr, DecidableEq

/-- The catch block of each handler in `index.ts`: a thrown error is
mapped to a response by inspecting only its `code` tag; anything without
a recognised tag falls through to a constant 500 body. -/
def catchOf : Endpoint → DbErr → Response
  | .getUsersE, _ => ⟨500, .err "Failed to fetch users"⟩
  | .postUsersE, .uniqueViolation => ⟨409, .err "Email already exists"⟩
  | .postUsersE, _ => ⟨500, .err "Failed to create user"⟩
  | .putUsersE, .uniqueViolation => ⟨409, .err "Email already exists"⟩
  | .putUsersE, .notFound => ⟨404, .err "User not found"⟩
  | .putUsersE, _ => ⟨500, .err "Failed to update user"⟩
  | .deleteUsersE, .notFound => ⟨404, .err "User not found"⟩
  | .deleteUsersE, _ => ⟨500, .err "Failed to delete user"⟩
  | .getMessagesE, _ => ⟨500, .err "Failed to fetch messages"⟩
  | .getMessageE, _ => ⟨500, .err "Failed to fetch message"⟩
  | .postMessagesE, .foreignKeyViolation => ⟨404, .err "User not found"⟩
  | .postMessagesE, _ => ⟨500, .err "Failed to create message"⟩
  | .putMessagesE, .notFound => ⟨404, .err "Message not found"⟩
  | .putMessagesE, _ => ⟨500, .err "Failed to update message"⟩
  | .deleteMessagesE, .notFound => ⟨404, .err "Message not found"⟩
  | .deleteMessagesE, _ => ⟨500, .err "Failed to delete message"⟩
  | .getUserMessagesE, _ => ⟨500, .err "Failed to fetch user messages"⟩

/-- GET /api/v1/users. -/
def getUsersH (db : DB) : Response × DB :=
  (⟨200, .usersRes (getAllUsers db)⟩, db)

/-- POST /api/v1/users: presence validation (`!name || !email` → 400),
then `createUser`, catch block per `catchOf .postUsersE`. -/
def postUsersH (b : UserBody) (db : DB) : Response × DB :=
  if !truthyS b.name || !truthyS b.email then
    (⟨400, .err "Name and email are required"⟩, db)
  else
    match createUser (b.name.getD "") (b.email.getD "") db with
    | .ok (u, db') => (⟨201, .userRes "User created" u⟩, db')
    | .error e => (catchOf .postUsersE e, db)

/-- The update payload built by PUT /users/:id: a field is copied into
`updateData` only when truthy (`if (name) updateData.name = name`). -/
def mkUpdateData (b : UserBody) : UpdateData :=
  { name := if truthyS b.name then b.name else none,
    email := if truthyS b.email then b.email else none }

/-- PUT /api/v1/users/:id: `!name && !email` → 400, otherwise
`updateUser` on the parsed id with the truthy fields only. -/
def putUsersH (id : Option Int) (b : UserBody) (db : DB) : Response × DB :=
  if !truthyS b.name && !truthyS b.email then
    (⟨400, .err "At least one field (name or email) is required"⟩, db)
  else
    match updateUser id (mkUpdateData b) db with
    | .ok (u, db') => (⟨200, .userRes "User updated" u⟩, db')
    | .error e => (catchOf .putUsersE e, db)

/-- DELETE /api/v1/users/:id. -/
def deleteUsersH (id : Option Int) (db : DB) : Response × DB :=
  match deleteUser id db with
  | .ok db' => (⟨200, .confirmation "User deleted"⟩, db')
  | .error e => (catchOf .deleteUsersE e, db)

/-- GET /api/v1/messages. -/
def getMessagesH (db : DB) : Response × DB :=
  (⟨200, .msgsRes (getAllMessages db)⟩, db)

/-- GET /api/v1/messages/:id: absence (a `null` result) is a 404. -/
def getMessageH (id : Option Int) (db : DB) : Response × DB :=
  match getMessageById id db with
  | none => (⟨404, .err "Message not found"⟩, db)
  | some m => (⟨200, .oneMsg m⟩, db)

/-- POST /api/v1/messages: `!content || !user_id` → 400, then
`createMessage`; `FOREIGN_KEY_VIOLATION` → 404 per the catch block. -/
def postMessagesH (b : MsgBody) (db : DB) : Response × DB :=
  if !truthyS b.content || !truthyN b.user_id then
    (⟨400, .err "Content and user_id are required"⟩, db)
  else
    match createMessage (b.content.getD "") (b.user_id.getD 0) db with
    | .ok (m, db') => (⟨201, .msgRes "Message created" m⟩, db')
    | .error e => (catchOf .postMessagesE e, db)

/-- PUT /api/v1/messages/:id: `!content` → 400, then `updateMessage`. -/
def putMessagesH (id : Option Int) (content : Option String) (db : DB) :
    Response × DB :=
  if !truthyS content then
    (⟨400, .err "Content is required"⟩, db)
  else
    match updateMessage id (content.getD "") db with
    | .ok (m, db') => (⟨200, .msgRes "Message updated" m⟩, db')
    | .error e => (catchOf .putMessagesE e, db)

/-- DELETE /api/v1/messages/:id. -/
def deleteMessagesH (id : Option Int) (db : DB) : Response × DB :=
  match deleteMessage id db with
  | .ok db' => (⟨200, .confirmation "Message deleted"⟩, db')
  | .error e => (catchOf .deleteMessagesE e, db)

/-- GET /api/v1/messages/user/:user_id. -/
def getUserMessagesH (user_id : Option Int) (db : DB) : Response × DB :=
  (⟨200, .msgsRes (getMessagesByUserId user_id db)⟩, db)

/-! ## Shared auxiliaries for the proofs -/

/-- The error kind of a raised error: its `code` tag with any internal
detail stripped (all unrecognised errors share one kind). -/
def errKind : DbErr → Nat
  | .uniqueViolation => 0
  | .notFound => 1
  | .foreignKeyViolation => 2
  | .other _ => 3

/-- The closed set of constant `error` strings the catch blocks of
`index.ts` can emit. -/
def errorBodies : List String :=
  ["Email already exists", "User not found", "Message not found",
   "Failed to fetch users", "Failed to create user", "Failed to update user",
   "Failed to delete user", "Failed to fetch messages", "Failed to fetch message",
   "Failed to create message", "Failed to update message",
   "Failed to delete message", "Failed to fetch user messages"]

/-- No stored email may occur twice (the unique index on `email`). -/
def emailsUnique (us : List User) : Prop :=
  us.Pairwise (fun a b => a.email ≠ b.email)

/-- A user lookup over rows none of which carry the id misses. -/
theorem userFind?_eq_none {l : List User} {i : Int} (h : ∀ u ∈ l, u.id ≠ i) :
    l.find? (fun u => some u.id == some i) = none := by
  rw [List.find?_eq_none]
  intro u hu
  simp [h u hu]

/-- A message lookup over rows none of which carry the id misses. -/
theorem msgFind?_eq_none {l : List Message} {i : Int} (h : ∀ m ∈ l, m.id ≠ i) :
    l.find? (fun m => some m.id == some i) = none := by
  rw [List.find?_eq_none]
  intro m hm
  simp [h m hm]

/-- A lookup with a `NaN` id (modelled `none`) always misses: `NaN`
compares unequal to every number. -/
theorem userFind?_nan (l : List User) :
    l.find? (fun u => some u.id == none) = none := by
  rw [List.find?_eq_none]
  intro u _
  simp

/-- A message lookup with a `NaN` id always misses. -/
theorem msgFind?_nan (l : List Message) :
    l.find? (fun m => some m.id == none) = none := by
  rw [List.find?_eq_none]
  intro m _
  simp

/-- `userFind?_eq_none` in the `Bool`-equality form `simp` produces. -/
theorem userFind?_eq_none_beq {l : List User} {i : Int} (h : ∀ u ∈ l, u.id ≠ i) :
    (l.find? fun u => u.id == i) = none := by
  rw [List.find?_eq_none]
  intro u hu
  simp [h u hu]

/-- `msgFind?_eq_none` in the `Bool`-equality form `simp` produces. -/
theorem msgFind?_eq_none_beq {l : List Message} {i : Int} (h : ∀ m ∈ l, m.id ≠ i) :
    (l.find? fun m => m.id == i) = none := by
  rw [List.find?_eq_none]
  intro m hm
  simp [h m hm]

/-- A search with an everywhere-false predicate misses. -/
theorem find?_const_false {α : Type} (l : List α) : (l.find? fun _ => false) = none := by
  rw [List.find?_eq_none]
  intro x _
  simp

/-- A non-empty string body field is truthy. -/
theorem truthyS_some {s : String} (h : s ≠ "") : truthyS (some s) = true := by
  have he : s.isEmpty = false := by
    rw [Bool.eq_false_iff]
    intro hh
    exact h ((String.isEmpty_iff s).mp hh)
  simp [truthyS, he]

/-! ## The claims -/

/-- C8: the error responses of every endpoint are determined only by the
endpoint and the semantic error kind — two errors of equal kind (in
particular, two unanticipated errors with different internal details)
produce identical responses — and every such response body is the
constant `error` string drawn from the closed set `errorBodies`; no
internal detail ever reaches the caller. -/
theorem catchOf_const_and_detail_free (ep : Endpoint) (e e1 e2 : DbErr)
    (h : errKind e1 = errKind e2) :
    catchOf ep e1 = catchOf ep e2 ∧
    ∃ s, (catchOf ep e).body = Body.err s ∧ s ∈ errorBodies := by
  constructor
  · cases e1 <;> cases e2 <;> simp [errKind] at h <;> cases ep <;> rfl
  · cases ep <;> cases e <;> simp [catchOf, errorBodies]

/-- C8 witness: the POST /users endpoint maps two distinct internal
errors of the unanticipated kind to the same constant 500 response. -/
theorem catchOf_const_and_detail_free_witness :
    catchOf .postUsersE (.other "SQLITE_BUSY at db.c:41") =
      catchOf .postUsersE (.other "ECONNRESET") ∧
    ∃ s, (catchOf .postUsersE (.other "SQLITE_BUSY at db.c:41")).body = Body.err s ∧
      s ∈ errorBodies :=
  catchOf_const_and_detail_free .postUsersE (.other "SQLITE_BUSY at db.c:41")
    (.other "SQLITE_BUSY at db.c:41") (.other "ECONNRESET") rfl

/-- C9: a PUT /users/:id body carrying both `name` and `email` as keys
with empty-string values is rejected with 400 ("At least one field
(name or email) is required") and the store is untouched: field presence
is truthiness, so an empty-string field counts as absent and is never
copied into the update payload. -/
theorem putUsers_empty_strings_400 (id : Option Int) (db : DB) (o : Option String) :
    putUsersH id ⟨some "", some ""⟩ db =
      (⟨400, Body.err "At least one field (name or email) is required"⟩, db) ∧
    (mkUpdateData ⟨o, some ""⟩).email = none ∧
    (mkUpdateData ⟨some "", o⟩).name = none := by
  have h00 : truthyS (some "") = false := by decide
  refine ⟨?_, ?_, ?_⟩
  · simp [putUsersH, h00]
  · simp [mkUpdateData, h00]
  · simp [mkUpdateData, h00]

/-- C10: a POST /messages body whose `user_id` is `0` (or any other
falsy value) together with non-empty `content` is rejected by the
presence pre-check with 400 ("Content and user_id are required") before
the data layer runs, and the store is untouched. -/
theorem postMessages_falsy_user_id_400 (db : DB) (c : String) (_hc : c ≠ "")
    (uid : Option Int) (hu : truthyN uid = false) :
    postMessagesH ⟨some c, some 0⟩ db =
      (⟨400, Body.err "Content and user_id are required"⟩, db) ∧
    postMessagesH ⟨some c, uid⟩ db =
      (⟨400, Body.err "Content and user_id are required"⟩, db) := by
  constructor
  · simp [postMessagesH, truthyN]
  · simp [postMessagesH, hu]

/-- C10 witness: `user_id = 0` with content `"hi"` on the empty store. -/
theorem postMessages_falsy_user_id_400_witness :
    postMessagesH ⟨some "hi", some 0⟩ ⟨[], [], 1, 1, 0⟩ =
      (⟨400, Body.err "Content and user_id are required"⟩, ⟨[], [], 1, 1, 0⟩) ∧
    postMessagesH ⟨some "hi", none⟩ ⟨[], [], 1, 1, 0⟩ =
      (⟨400, Body.err "Content and user_id are required"⟩, ⟨[], [], 1, 1, 0⟩) :=
  postMessages_falsy_user_id_400 ⟨[], [], 1, 1, 0⟩ "hi" (by decide) none rfl

/-- C1 counterexample: on the empty store, a POST /messages body that
passes validation (`content = "hi"`, `user_id = 1`) but references no
user is answered 404 — yet the body is the constant
`{error: "User not found"}` of the catch block, not the
`{error: "Related record not found"}` the claim states. -/
theorem postMessages_fk_body_counterexample :
    (postMessagesH ⟨some "hi", some 1⟩ ⟨[], [], 1, 1, 0⟩).1.status = 404 ∧
    (postMessagesH ⟨some "hi", some 1⟩ ⟨[], [], 1, 1, 0⟩).1.body =
      Body.err "User not found" ∧
    Body.err "User not found" ≠ Body.err "Related record not found" := by
  refine ⟨rfl, rfl, by decide⟩

/-- C1 amended: a POST /messages body passing validation whose `user_id`
references no stored user makes `createMessage` raise
`FOREIGN_KEY_VIOLATION`, answered 404 with body
`{error: "User not found"}` (not "Related record not found"), and no
message row is persisted (the store is returned unchanged). -/
theorem postMessages_fk_404 (db : DB) (b : MsgBody) (c : String) (n : Int)
    (hc : b.content = some c) (hcc : c ≠ "") (hu : b.user_id = some n) (hn : n ≠ 0)
    (habs : ∀ u ∈ db.users, u.id ≠ n) :
    createMessage c n db = .error .foreignKeyViolation ∧
    postMessagesH b db = (⟨404, Body.err "User not found"⟩, db) := by
  have hany : db.users.any (fun u => u.id == n) = false := by
    rw [Bool.eq_false_iff]
    intro hh
    obtain ⟨u, hmem, hid⟩ := List.any_eq_true.mp hh
    exact habs u hmem (by simpa using hid)
  have hcreate : createMessage c n db = .error .foreignKeyViolation := by
    simp [createMessage, hany]
  refine ⟨hcreate, ?_⟩
  simp [postMessagesH, hc, hu, truthyS_some hcc, truthyN, hn, hcreate, catchOf]

/-- C1 witness: the concrete counterexample state of the claim, on the
empty store with `content = "hi"`, `user_id = 1`. -/
theorem postMessages_fk_404_witness :
    createMessage "hi" 1 ⟨[], [], 1, 1, 0⟩ = .error .foreignKeyViolation ∧
    postMessagesH ⟨some "hi", some 1⟩ ⟨[], [], 1, 1, 0⟩ =
      (⟨404, Body.err "User not found"⟩, ⟨[], [], 1, 1, 0⟩) :=
  postMessages_fk_404 ⟨[], [], 1, 1, 0⟩ ⟨some "hi", some 1⟩ "hi" 1 rfl (by decide)
    rfl (by decide) (by intro u hu; simp at hu)

/-- C3 counterexample: with Alice already storing `a@example.com`, a
POST /users request re-using that email but with the empty string as
`name` is answered 400 by the presence pre-check — not the 409 the
claim asserts for every name. -/
theorem postUsers_dup_email_counterexample :
    (postUsersH ⟨some "", some "a@example.com"⟩
        ⟨[⟨1, "Alice", "a@example.com", 0, 0⟩], [], 2, 1, 0⟩).1.status = 400 ∧
    (400 : Nat) ≠ 409 := by
  refine ⟨rfl, by decide⟩

/-- C3 amended: when some stored user already has email `e`,
`createUser n e` raises `UNIQUE_VIOLATION` for every name `n`, and for
every request whose `name` and `email` fields are non-empty (so the
presence pre-check passes) POST /users answers 409
`{error: "Email already exists"}`; the store is returned unchanged in
either case, so email uniqueness is preserved. -/
theorem postUsers_dup_email_409 (db : DB) (n e : String)
    (hdup : ∃ u ∈ db.users, u.email = e) :
    createUser n e db = .error .uniqueViolation ∧
    (n ≠ "" → e ≠ "" →
      postUsersH ⟨some n, some e⟩ db = (⟨409, Body.err "Email already exists"⟩, db)) ∧
    (postUsersH ⟨some n, some e⟩ db).2 = db ∧
    (emailsUnique db.users → emailsUnique ((postUsersH ⟨some n, some e⟩ db).2).users) := by
  have hany : db.users.any (fun u => u.email == e) = true := by
    obtain ⟨u, hmem, heq⟩ := hdup
    exact List.any_eq_true.mpr ⟨u, hmem, by simp [heq]⟩
  have hcreate : createUser n e db = .error .uniqueViolation := by
    simp [createUser, hany]
  refine ⟨hcreate, ?_, ?_, ?_⟩
  · intro hn he
    simp [postUsersH, truthyS_some hn, truthyS_some he, hcreate, catchOf]
  · by_cases hb : (!truthyS (some n) || !truthyS (some e)) = true
    · simp [postUsersH, hb]
    · simp [postUsersH, hb, hcreate]
  · intro huniq
    by_cases hb : (!truthyS (some n) || !truthyS (some e)) = true
    · simpa [postUsersH, hb] using huniq
    · simpa [postUsersH, hb, hcreate] using huniq

/-- C3 witness: Alice's email re-used with name "Bob" on a concrete
store yields `UNIQUE_VIOLATION` and the 409 response. -/
theorem postUsers_dup_email_409_witness :
    createUser "Bob" "a@example.com" ⟨[⟨1, "Alice", "a@example.com", 0, 0⟩], [], 2, 1, 0⟩ =
      .error .uniqueViolation ∧
    ("Bob" ≠ "" → "a@example.com" ≠ "" →
      postUsersH ⟨some "Bob", some "a@example.com"⟩
          ⟨[⟨1, "Alice", "a@example.com", 0, 0⟩], [], 2, 1, 0⟩ =
        (⟨409, Body.err "Email already exists"⟩,
         ⟨[⟨1, "Alice", "a@example.com", 0, 0⟩], [], 2, 1, 0⟩)) ∧
    (postUsersH ⟨some "Bob", some "a@example.com"⟩
        ⟨[⟨1, "Alice", "a@example.com", 0, 0⟩], [], 2, 1, 0⟩).2 =
      ⟨[⟨1, "Alice", "a@example.com", 0, 0⟩], [], 2, 1, 0⟩ ∧
    (emailsUnique [⟨1, "Alice", "a@example.com", 0, 0⟩] →
      emailsUnique ((postUsersH ⟨some "Bob", some "a@example.com"⟩
          ⟨[⟨1, "Alice", "a@example.com", 0, 0⟩], [], 2, 1, 0⟩).2).users) :=
  postUsers_dup_email_409 ⟨[⟨1, "Alice", "a@example.com", 0, 0⟩], [], 2, 1, 0⟩
    "Bob" "a@example.com" ⟨⟨1, "Alice", "a@example.com", 0, 0⟩, by simp, rfl⟩

/-- C4: on an id carried by no stored row, `updateUser`, `updateMessage`,
`deleteUser` and `deleteMessage` all raise `NOT_FOUND`; the handlers
answer 404 with the entity's "not found" body (given a body that passes
the pre-check, where one exists); the store is returned unchanged, so
repeating the same call yields the identical result. -/
theorem notFound_404_idempotent (db : DB) (i : Int)
    (hu : ∀ u ∈ db.users, u.id ≠ i) (hm : ∀ m ∈ db.messages, m.id ≠ i)
    (b : UserBody) (c : String) :
    updateUser (some i) (mkUpdateData b) db = .error .notFound ∧
    deleteUser (some i) db = .error .notFound ∧
    updateMessage (some i) c db = .error .notFound ∧
    deleteMessage (some i) db = .error .notFound ∧
    ((truthyS b.name || truthyS b.email) = true →
      putUsersH (some i) b db = (⟨404, Body.err "User not found"⟩, db)) ∧
    deleteUsersH (some i) db = (⟨404, Body.err "User not found"⟩, db) ∧
    (c ≠ "" →
      putMessagesH (some i) (some c) db = (⟨404, Body.err "Message not found"⟩, db)) ∧
    deleteMessagesH (some i) db = (⟨404, Body.err "Message not found"⟩, db) ∧
    putUsersH (some i) b ((putUsersH (some i) b db).2) = putUsersH (some i) b db ∧
    deleteUsersH (some i) ((deleteUsersH (some i) db).2) = deleteUsersH (some i) db ∧
    putMessagesH (some i) (some c) ((putMessagesH (some i) (some c) db).2) =
      putMessagesH (some i) (some c) db ∧
    deleteMessagesH (some i) ((deleteMessagesH (some i) db).2) =
      deleteMessagesH (some i) db := by
  have hfu := userFind?_eq_none hu
  have hfm := msgFind?_eq_none hm
  have hfub := userFind?_eq_none_beq hu
  have hfmb := msgFind?_eq_none_beq hm
  have h1 : ∀ d, updateUser (some i) d db = .error .notFound := fun d => by
    simp [updateUser, hfu, hfub]
  have h2 : deleteUser (some i) db = .error .notFound := by simp [deleteUser, hfu, hfub]
  have h3 : ∀ s, updateMessage (some i) s db = .error .notFound := fun s => by
    simp [updateMessage, hfm, hfmb]
  have h4 : deleteMessage (some i) db = .error .notFound := by
    simp [deleteMessage, hfm, hfmb]
  have hdelU : deleteUsersH (some i) db = (⟨404, Body.err "User not found"⟩, db) := by
    simp [deleteUsersH, h2, catchOf]
  have hdelM : deleteMessagesH (some i) db = (⟨404, Body.err "Message not found"⟩, db) := by
    simp [deleteMessagesH, h4, catchOf]
  have hputU2 : (putUsersH (some i) b db).2 = db := by
    unfold putUsersH
    by_cases hb : (!truthyS b.name && !truthyS b.email) = true
    · simp [hb]
    · simp [hb, h1]
  have hputM2 : (putMessagesH (some i) (some c) db).2 = db := by
    unfold putMessagesH
    rcases ht : truthyS (some c) with _ | _
    · simp [ht]
    · simp [ht, h3]
  refine ⟨h1 _, h2, h3 c, h4, ?_, hdelU, ?_, hdelM, ?_, ?_, ?_, ?_⟩
  · intro hb
    have hcond : (!truthyS b.name && !truthyS b.email) = false := by
      rcases hbn : truthyS b.name <;> rcases hbe : truthyS b.email <;> simp_all
    simp [putUsersH, hcond, h1, catchOf]
  · intro hc
    simp [putMessagesH, truthyS_some hc, h3, catchOf]
  · rw [hputU2]
  · rw [hdelU]
    exact hdelU
  · rw [hputM2]
  · rw [hdelM]
    exact hdelM

/-- C4 witness: id 7 identifies nothing in a concrete one-user store;
all four operations and handlers fail identically and idempotently. -/
theorem notFound_404_idempotent_witness :
    updateUser (some 7) (mkUpdateData ⟨some "Bob", none⟩)
        ⟨[⟨1, "Alice", "a@example.com", 0, 0⟩], [], 2, 1, 0⟩ = .error .notFound ∧
    deleteUser (some 7) ⟨[⟨1, "Alice", "a@example.com", 0, 0⟩], [], 2, 1, 0⟩ =
      .error .notFound ∧
    updateMessage (some 7) "hi" ⟨[⟨1, "Alice", "a@example.com", 0, 0⟩], [], 2, 1, 0⟩ =
      .error .notFound ∧
    deleteMessage (some 7) ⟨[⟨1, "Alice", "a@example.com", 0, 0⟩], [], 2, 1, 0⟩ =
      .error .notFound ∧
    ((truthyS (some "Bob") || truthyS none) = true →
      putUsersH (some 7) ⟨some "Bob", none⟩
          ⟨[⟨1, "Alice", "a@example.com", 0, 0⟩], [], 2, 1, 0⟩ =
        (⟨404, Body.err "User not found"⟩,
         ⟨[⟨1, "Alice", "a@example.com", 0, 0⟩], [], 2, 1, 0⟩)) ∧
    deleteUsersH (some 7) ⟨[⟨1, "Alice", "a@example.com", 0, 0⟩], [], 2, 1, 0⟩ =
      (⟨404, Body.err "User not found"⟩,
       ⟨[⟨1, "Alice", "a@example.com", 0, 0⟩], [], 2, 1, 0⟩) ∧
    ("hi" ≠ "" →
      putMessagesH (some 7) (some "hi")
          ⟨[⟨1, "Alice", "a@example.com", 0, 0⟩], [], 2, 1, 0⟩ =
        (⟨404, Body.err "Message not found"⟩,
         ⟨[⟨1, "Alice", "a@example.com", 0, 0⟩], [], 2, 1, 0⟩)) ∧
    deleteMessagesH (some 7) ⟨[⟨1, "Alice", "a@example.com", 0, 0⟩], [], 2, 1, 0⟩ =
      (⟨404, Body.err "Message not found"⟩,
       ⟨[⟨1, "Alice", "a@example.com", 0, 0⟩], [], 2, 1, 0⟩) ∧
    putUsersH (some 7) ⟨some "Bob", none⟩
        ((putUsersH (some 7) ⟨some "Bob", none⟩
          ⟨[⟨1, "Alice", "a@example.com", 0, 0⟩], [], 2, 1, 0⟩).2) =
      putUsersH (some 7) ⟨some "Bob", none⟩
        ⟨[⟨1, "Alice", "a@example.com", 0, 0⟩], [], 2, 1, 0⟩ ∧
    deleteUsersH (some 7)
        ((deleteUsersH (some 7) ⟨[⟨1, "Alice", "a@example.com", 0, 0⟩], [], 2, 1, 0⟩).2) =
      deleteUsersH (some 7) ⟨[⟨1, "Alice", "a@example.com", 0, 0⟩], [], 2, 1, 0⟩ ∧
    putMessagesH (some 7) (some "hi")
        ((putMessagesH (some 7) (some "hi")
          ⟨[⟨1, "Alice", "a@example.com", 0, 0⟩], [], 2, 1, 0⟩).2) =
      putMessagesH (some 7) (some "hi")
        ⟨[⟨1, "Alice", "a@example.com", 0, 0⟩], [], 2, 1, 0⟩ ∧
    deleteMessagesH (some 7)
        ((deleteMessagesH (some 7)
          ⟨[⟨1, "Alice", "a@example.com", 0, 0⟩], [], 2, 1, 0⟩).2) =
      deleteMessagesH (some 7) ⟨[⟨1, "Alice", "a@example.com", 0, 0⟩], [], 2, 1, 0⟩ :=
  notFound_404_idempotent ⟨[⟨1, "Alice", "a@example.com", 0, 0⟩], [], 2, 1, 0⟩ 7
    (by intro u hu; simp at hu; simp [hu]) (by intro m hm; simp at hm)
    ⟨some "Bob", none⟩ "hi"

/-- C6: a malformed (non-numeric) path id parses to NaN (`none`), which
matches no stored row, so every `:id` endpoint answers the same 404
"not found" it gives an absent id — no distinct parse error and no
other status (bodies that must pass the pre-check assumed valid). -/
theorem malformed_id_as_miss (s : String) (hmal : parseIntJs s = none) (db : DB)
    (b : UserBody) (hb : (truthyS b.name || truthyS b.email) = true)
    (c : String) (hc : c ≠ "") :
    getMessageH (parseIntJs s) db = (⟨404, Body.err "Message not found"⟩, db) ∧
    putUsersH (parseIntJs s) b db = (⟨404, Body.err "User not found"⟩, db) ∧
    deleteUsersH (parseIntJs s) db = (⟨404, Body.err "User not found"⟩, db) ∧
    putMessagesH (parseIntJs s) (some c) db = (⟨404, Body.err "Message not found"⟩, db) ∧
    deleteMessagesH (parseIntJs s) db = (⟨404, Body.err "Message not found"⟩, db) := by
  rw [hmal]
  have hfu := userFind?_nan db.users
  have hfm := msgFind?_nan db.messages
  have hff : ∀ {α : Type} (l : List α), (l.find? fun _ => false) = none :=
    fun l => find?_const_false l
  have hcond : (!truthyS b.name && !truthyS b.email) = false := by
    rcases hbn : truthyS b.name <;> rcases hbe : truthyS b.email <;> simp_all
  refine ⟨?_, ?_, ?_, ?_, ?_⟩
  · simp [getMessageH, getMessageById, hfm, hff]
  · simp [putUsersH, hcond, updateUser, hfu, hff, catchOf]
  · simp [deleteUsersH, deleteUser, hfu, hff, catchOf]
  · simp [putMessagesH, truthyS_some hc, updateMessage, hfm, hff, catchOf]
  · simp [deleteMessagesH, deleteMessage, hfm, hff, catchOf]

/-- C6 witness: the malformed path id "abc" on a concrete store holding
one user and one message; every `:id` endpoint answers its 404. -/
theorem malformed_id_as_miss_witness :
    parseIntJs "abc" = none ∧
    (getMessageH (parseIntJs "abc")
        ⟨[⟨1, "Alice", "a@example.com", 0, 0⟩], [⟨1, "hi", 1, 0, 0⟩], 2, 2, 0⟩ =
      (⟨404, Body.err "Message not found"⟩,
       ⟨[⟨1, "Alice", "a@example.com", 0, 0⟩], [⟨1, "hi", 1, 0, 0⟩], 2, 2, 0⟩) ∧
    putUsersH (parseIntJs "abc") ⟨some "Bob", none⟩
        ⟨[⟨1, "Alice", "a@example.com", 0, 0⟩], [⟨1, "hi", 1, 0, 0⟩], 2, 2, 0⟩ =
      (⟨404, Body.err "User not found"⟩,
       ⟨[⟨1, "Alice", "a@example.com", 0, 0⟩], [⟨1, "hi", 1, 0, 0⟩], 2, 2, 0⟩) ∧
    deleteUsersH (parseIntJs "abc")
        ⟨[⟨1, "Alice", "a@example.com", 0, 0⟩], [⟨1, "hi", 1, 0, 0⟩], 2, 2, 0⟩ =
      (⟨404, Body.err "User not found"⟩,
       ⟨[⟨1, "Alice", "a@example.com", 0, 0⟩], [⟨1, "hi", 1, 0, 0⟩], 2, 2, 0⟩) ∧
    putMessagesH (parseIntJs "abc") (some "yo")
        ⟨[⟨1, "Alice", "a@example.com", 0, 0⟩], [⟨1, "hi", 1, 0, 0⟩], 2, 2, 0⟩ =
      (⟨404, Body.err "Message not found"⟩,
       ⟨[⟨1, "Alice", "a@example.com", 0, 0⟩], [⟨1, "hi", 1, 0, 0⟩], 2, 2, 0⟩) ∧
    deleteMessagesH (parseIntJs "abc")
        ⟨[⟨1, "Alice", "a@example.com", 0, 0⟩], [⟨1, "hi", 1, 0, 0⟩], 2, 2, 0⟩ =
      (⟨404, Body.err "Message not found"⟩,
       ⟨[⟨1, "Alice", "a@example.com", 0, 0⟩], [⟨1, "hi", 1, 0, 0⟩], 2, 2, 0⟩)) :=
  ⟨by decide,
   malformed_id_as_miss "abc" (by decide)
     ⟨[⟨1, "Alice", "a@example.com", 0, 0⟩], [⟨1, "hi", 1, 0, 0⟩], 2, 2, 0⟩
     ⟨some "Bob", none⟩ (by decide) "yo" (by decide)⟩

/-- C5: with a non-empty name and an email no stored user carries, and
ids assigned below the autoincrement counter (as the store guarantees),
`createUser` succeeds, assigns the system id `nextUserId`, and a
subsequent `getUserById` on that id returns a user carrying exactly the
input name and email. -/
theorem createUser_getUserById_roundtrip (db : DB) (name email : String)
    (_hn : name ≠ "")
    (hfresh : ∀ u ∈ db.users, u.id < db.nextUserId)
    (he : ∀ u ∈ db.users, u.email ≠ email) :
    ∃ u db', createUser name email db = .ok (u, db') ∧
      u.name = name ∧ u.email = email ∧ u.id = db.nextUserId ∧
      getUserById (some u.id) db' = some u := by
  have hany : db.users.any (fun u => u.email == email) = false := by
    rw [Bool.eq_false_iff]
    intro hh
    obtain ⟨u, hmem, hemail⟩ := List.any_eq_true.mp hh
    exact he u hmem (by simpa using hemail)
  refine ⟨⟨db.nextUserId, name, email, db.now, db.now⟩,
    { db with users := db.users ++ [⟨db.nextUserId, name, email, db.now, db.now⟩],
              nextUserId := db.nextUserId + 1 }, ?_, rfl, rfl, rfl, ?_⟩
  · simp [createUser, hany]
  · have h1 : db.users.find? (fun u => some u.id == some db.nextUserId) = none :=
      userFind?_eq_none (fun u hu => Int.ne_of_lt (hfresh u hu))
    simp [getUserById, List.find?_append, h1]
    right
    intro x hx
    exact Int.ne_of_lt (hfresh x hx)

/-- C5 witness: creating Alice on the empty store and reading her back. -/
theorem createUser_getUserById_roundtrip_witness :
    ∃ u db', createUser "Alice" "a@example.com" ⟨[], [], 1, 1, 0⟩ = .ok (u, db') ∧
      u.name = "Alice" ∧ u.email = "a@example.com" ∧ u.id = (1 : Int) ∧
      getUserById (some u.id) db' = some u :=
  createUser_getUserById_roundtrip ⟨[], [], 1, 1, 0⟩ "Alice" "a@example.com"
    (by decide) (by intro u hu; simp at hu) (by intro u hu; simp at hu)

/-- C2: deleting an existing user succeeds; the cascade leaves no
message referencing the deleted id, a subsequent `getUserById` on the id
returns absent, and referential integrity (every message's `user_id`
names a stored user) is preserved. -/
theorem deleteUser_cascade (db : DB) (i : Int) (hex : ∃ u ∈ db.users, u.id = i) :
    ∃ db', deleteUser (some i) db = .ok db' ∧
      (∀ m ∈ db'.messages, m.user_id ≠ i) ∧
      getUserById (some i) db' = none ∧
      ((∀ m ∈ db.messages, ∃ u ∈ db.users, u.id = m.user_id) →
        ∀ m ∈ db'.messages, ∃ u ∈ db'.users, u.id = m.user_id) := by
  obtain ⟨w, hw, hwid⟩ := hex
  rcases hfind : db.users.find? (fun u => some u.id == some i) with _ | u
  · exfalso
    rw [List.find?_eq_none] at hfind
    exact hfind w hw (by simp [hwid])
  · have huid : u.id = i := by
      have hpu := List.find?_some hfind
      simpa using hpu
    refine ⟨{ db with users := db.users.filter (fun v => v.id != u.id),
                      messages := db.messages.filter (fun m => m.user_id != u.id) },
      ?_, ?_, ?_, ?_⟩
    · unfold deleteUser
      rw [hfind]
    · intro m hm
      have h2 := (List.mem_filter.mp hm).2
      rw [← huid]
      simpa using h2
    · rw [getUserById, List.find?_eq_none]
      intro v hv
      have h2 := (List.mem_filter.mp hv).2
      rw [← huid]
      simpa using h2
    · intro href m hm
      obtain ⟨hmem, hne⟩ := List.mem_filter.mp hm
      obtain ⟨v, hvmem, hvid⟩ := href m hmem
      refine ⟨v, List.mem_filter.mpr ⟨hvmem, ?_⟩, hvid⟩
      simp only [bne_iff_ne, ne_eq]
      rw [hvid]
      simpa using hne

/-- C2 witness: deleting Alice, who owns the only message in a concrete
store, cascades and empties both tables of her rows. -/
theorem deleteUser_cascade_witness :
    ∃ db', deleteUser (some 1)
        ⟨[⟨1, "Alice", "a@example.com", 0, 0⟩], [⟨1, "hi", 1, 0, 0⟩], 2, 2, 0⟩ = .ok db' ∧
      (∀ m ∈ db'.messages, m.user_id ≠ (1 : Int)) ∧
      getUserById (some 1) db' = none ∧
      ((∀ m ∈ ([⟨1, "hi", 1, 0, 0⟩] : List Message),
          ∃ u ∈ ([⟨1, "Alice", "a@example.com", 0, 0⟩] : List User), u.id = m.user_id) →
        ∀ m ∈ db'.messages, ∃ u ∈ db'.users, u.id = m.user_id) :=
  deleteUser_cascade ⟨[⟨1, "Alice", "a@example.com", 0, 0⟩], [⟨1, "hi", 1, 0, 0⟩], 2, 2, 0⟩ 1
    ⟨⟨1, "Alice", "a@example.com", 0, 0⟩, by simp, rfl⟩

/-- C7: `getAllUsers` returns exactly the stored users sorted ascending
by id; `getAllMessages` and `getMessagesByUserId` return exactly the
stored (resp. matching) messages sorted descending by creation time,
each joined with its owning user row. -/
theorem list_operations_ordered (db : DB) (uid : Int) :
    (getAllUsers db).Perm db.users ∧
    List.Sorted userLe (getAllUsers db) ∧
    ((getAllMessages db).map MsgJoined.msg).Perm db.messages ∧
    List.Sorted joinedGe (getAllMessages db) ∧
    (∀ j ∈ getAllMessages db, j.user = db.users.find? (fun u => u.id == j.msg.user_id)) ∧
    ((getMessagesByUserId (some uid) db).map MsgJoined.msg).Perm
      (db.messages.filter (fun m => m.user_id == uid)) ∧
    List.Sorted joinedGe (getMessagesByUserId (some uid) db) ∧
    (∀ j ∈ getMessagesByUserId (some uid) db,
      j.user = db.users.find? (fun u => u.id == j.msg.user_id)) := by
  have hmm : ∀ l : List Message, (l.map (joinUser db)).map MsgJoined.msg = l := by
    intro l
    rw [List.map_map]
    exact List.map_id l
  have hjoin : ∀ (l : List Message) (j : MsgJoined), j ∈ l.map (joinUser db) →
      j.user = db.users.find? (fun u => u.id == j.msg.user_id) := by
    intro l j hj
    obtain ⟨m, _, rfl⟩ := List.mem_map.mp hj
    rfl
  have hsortj : ∀ l : List Message,
      List.Sorted joinedGe ((l.insertionSort msgGe).map (joinUser db)) := fun l =>
    List.Pairwise.map (joinUser db) (fun _ _ h => h) (List.sorted_insertionSort msgGe l)
  have hfe : db.messages.filter (fun m => some m.user_id == some uid)
      = db.messages.filter (fun m => m.user_id == uid) := by
    apply List.filter_congr
    intro m _
    rfl
  refine ⟨List.perm_insertionSort userLe db.users,
    List.sorted_insertionSort userLe db.users, ?_, hsortj db.messages, ?_, ?_,
    hsortj (db.messages.filter (fun m => some m.user_id == some uid)), ?_⟩
  · unfold getAllMessages
    rw [hmm]
    exact List.perm_insertionSort msgGe db.messages
  · intro j hj
    exact hjoin _ j hj
  · unfold getMessagesByUserId
    rw [hmm, ← hfe]
    exact List.perm_insertionSort msgGe _
  · intro j hj
    exact hjoin _ j hj
